import Mathlib

/-!
Shallow embedding of `src/app.py` (a Flask adapter exposing a heatwave
forecasting model over HTTP) and proofs about its request-validation and
response-shaping contract.

Numbers carried by JSON and by the tabular data are modelled as rationals;
Python `int()` truncation toward zero and `float()` coercion are modelled
explicitly.  The two external collaborators (the `HeatwavePredictionModel`
and the historical CSV) are parameters of the route functions, as are the
outcomes of the library calls (`request.get_json()`, `pd.read_csv`).
-/

/-- Parsed JSON values as produced by Flask's JSON parsing. -/
inductive Json where
  | null : Json
  | bool : Bool → Json
  | num : ℚ → Json
  | str : String → Json
  | arr : List Json → Json
  | obj : List (String × Json) → Json

/-- Python exceptions the routes can observe, tagged by type so that the
`except json.JSONDecodeError` clause in `predict_heatwave` can dispatch on
the type.  `badRequest` is a werkzeug `BadRequest` HTTP exception. -/
inductive PyExc where
  | jsonDecodeErr : String → PyExc
  | badRequest : String → PyExc
  | typeErr : String → PyExc
  | keyErr : String → PyExc
  | other : String → PyExc

/-- Python `str(e)` on an exception.  For a werkzeug `HTTPException` such as
`BadRequest` the textual form is "400 Bad Request: <description>". -/
def PyExc.toStr : PyExc → String
  | .jsonDecodeErr m => m
  | .badRequest m => "400 Bad Request: " ++ m
  | .typeErr m => m
  | .keyErr m => m
  | .other m => m

/-- Whether the exception is a `json.JSONDecodeError` (the only type caught
by the inner `except` clause of `predict_heatwave`). -/
def PyExc.isJsonDecodeErr : PyExc → Bool
  | .jsonDecodeErr _ => true
  | _ => false

/-- Python truthiness of a parsed JSON value (`if not data`): `None`,
`False`, `0`, `""`, `[]` and `{}` are falsy, everything else truthy. -/
def truthy : Json → Bool
  | .null => false
  | .bool b => b
  | .num n => decide (n ≠ 0)
  | .str s => decide (s ≠ "")
  | .arr xs => !xs.isEmpty
  | .obj kvs => !kvs.isEmpty

/-- Python `==` between a parsed JSON value and a Python string: only a
string compares equal to a string. -/
def Json.eqStr (j : Json) (s : String) : Bool :=
  match j with
  | .str t => t = s
  | _ => false

/-- Substring test, for Python `key in someString`. -/
def strContainsSub (s pat : String) : Bool :=
  (List.range (s.length + 1)).any
    (fun i => ((s.toList.drop i).take pat.length) == pat.toList)

/-- Python `key in data` on a parsed JSON value: key membership for a dict,
element equality for a list, substring for a string, `TypeError` otherwise. -/
def pyContains (data : Json) (key : String) : Except PyExc Bool :=
  match data with
  | .obj kvs => .ok (kvs.any (fun p => p.1 = key))
  | .arr xs => .ok (xs.any (fun x => x.eqStr key))
  | .str s => .ok (strContainsSub s key)
  | _ => .error (.typeErr "argument is not iterable")

/-- Lookup in a parsed JSON object; `json` dicts keep the last duplicate. -/
def lookupLast (kvs : List (String × Json)) (key : String) : Option Json :=
  kvs.foldl (fun acc p => if p.1 = key then some p.2 else acc) none

/-- Python `data[key]` with a string key: dict lookup (`KeyError` when
absent), `TypeError` on any non-dict value. -/
def pyGetItem (data : Json) (key : String) : Except PyExc Json :=
  match data with
  | .obj kvs =>
    match lookupLast kvs key with
    | some v => .ok v
    | none => .error (.keyErr key)
  | _ => .error (.typeErr "indices must be integers")

/-- Python `int()` on a numeric value: truncation toward zero. -/
def pyInt (q : ℚ) : Int :=
  if 0 ≤ q.num then q.num / (q.den : Int) else -((-q.num) / (q.den : Int))

/-- An HTTP response: status code plus the `jsonify`-ed body. -/
structure Response where
  statusCode : Nat
  body : Json

/-- The fixed error envelope used by every non-2xx branch of both routes:
exactly the keys `error`, `message`, `status`, with `status = "error"`. -/
def errEnvelope (err msg : String) : Json :=
  .obj [("error", .str err), ("message", .str msg), ("status", .str "error")]

/-! ### Dates (`pandas` timestamp handling in the forecast formatter) -/

/-- A calendar day as held by a Python date/datetime/Timestamp value. -/
structure PyDate where
  year : Int
  month : Int
  day : Int

/-- Zero-padded two-digit field of `strftime`. -/
def pad2 (n : Int) : String :=
  (if n < 10 then "0" else "") ++ toString n

/-- `strftime('%Y-%m-%d')` on a date value. -/
def strftimeYmd (d : PyDate) : String :=
  toString d.year ++ "-" ++ pad2 d.month ++ "-" ++ pad2 d.day

/-- Whether `y` is a leap year (Gregorian). -/
def isLeap (y : Int) : Bool :=
  (y % 4 = 0 && y % 100 ≠ 0) || y % 400 = 0

/-- Number of days in month `m` of year `y`. -/
def daysInMonth (y m : Int) : Int :=
  if m = 2 then (if isLeap y then 29 else 28)
  else if m = 4 ∨ m = 6 ∨ m = 9 ∨ m = 11 then 30
  else 31

/-- Split a character list on a separator character. -/
def splitOnChar (c : Char) : List Char → List (List Char)
  | [] => [[]]
  | x :: xs =>
    match splitOnChar c xs, decide (x = c) with
    | r, true => [] :: r
    | [], false => [[x]]
    | h :: t, false => (x :: h) :: t

/-- The numeric value of a digit string. -/
def digitsVal (cs : List Char) : Nat :=
  cs.foldl (fun a c => a * 10 + (c.toNat - 48)) 0

/-- Parse a non-empty all-digit character list. -/
def parseNatDigits (cs : List Char) : Option Nat :=
  if !cs.isEmpty && cs.all (fun c => c.isDigit) then some (digitsVal cs) else none

/-- Modelled from the spec: `pd.to_datetime(s, errors='coerce')` on a text
timestamp — the spec's date-normalization contract only requires that a
calendar-day text form such as "2024-07-01" parses to that day and that an
unparseable value yields `NaT`; modelled here as an ISO `YYYY-MM-DD` parser
returning `none` for `NaT`.  (`pandas` itself is outside the repository.) -/
def toDatetimeCoerce (s : String) : Option PyDate :=
  match splitOnChar '-' s.toList with
  | [ys, ms, ds] =>
    match parseNatDigits ys, parseNatDigits ms, parseNatDigits ds with
    | some y, some m, some d =>
      if 1 ≤ m ∧ m ≤ 12 ∧ 1 ≤ d ∧ (d : Int) ≤ daysInMonth (y : Int) (m : Int)
      then some ⟨y, m, d⟩ else none
    | _, _, _ => none
  | _ => none

/-- Civil date from a count of days since 1970-01-01 (proleptic Gregorian),
as used by `pandas` nanosecond timestamps. -/
def civilFromDays (z0 : Int) : PyDate :=
  let z := z0 + 719468
  let era := (if 0 ≤ z then z else z - 146096) / 146097
  let doe := z - era * 146097
  let yoe := (doe - doe / 1460 + doe / 36524 - doe / 146096) / 365
  let y := yoe + era * 400
  let doy := doe - (365 * yoe + yoe / 4 - yoe / 100)
  let mp := (5 * doy + 2) / 153
  let d := doy - (153 * mp + 2) / 5 + 1
  let m := mp + (if mp < 10 then 3 else -9)
  ⟨(if m ≤ 2 then y + 1 else y), m, d⟩

/-- Nanoseconds per day. -/
def nsPerDay : Int := 86400000000000

/-- `pd.to_datetime(n, unit='ns')`: the calendar day of a nanosecond-precision
epoch timestamp. -/
def toDatetimeNs (n : Int) : PyDate :=
  civilFromDays (Int.fdiv n nsPerDay)

/-- The `time` cell of a forecast row: text timestamp, native date value
(anything with `strftime`), or nanosecond numeric timestamp. -/
inductive DateValue where
  | str : String → DateValue
  | native : PyDate → DateValue
  | numNs : Int → DateValue

/-- The date-normalization block of `predict_heatwave` (lines 52-63 of
`src/app.py`): dispatch on the representation, then
`strftime('%Y-%m-%d')` unless the parse produced `NaT`, in which case
`"N/A"`. -/
def formatDateValue : DateValue → String
  | .str s =>
    match toDatetimeCoerce s with
    | some d => strftimeYmd d
    | none => "N/A"
  | .native d => strftimeYmd d
  | .numNs n => strftimeYmd (toDatetimeNs n)

/-! ### Forecast rows and the `POST /heatwave` route -/

/-- One row of the forecast table returned by
`model.predict_heatwave(city)`.  The fields copied verbatim into the
response are kept as JSON values; the two coerced fields (`is_heatwave`,
`heatwave_probability`) and the `time` cell carry their tabular types. -/
structure ForecastRow where
  time : DateValue
  temperature_2m_max : Json
  apparent_temperature_max : Json
  relative_humidity_2m_mean : Json
  wind_speed_10m_max : Json
  cloud_cover_mean : Json
  precipitation_sum : Json
  is_heatwave : ℚ
  heatwave_probability : ℚ
  alert_level : Json
  alert_color : Json
  recommended_action : Json

/-- One entry of the `predictions` array of a 200 response. -/
structure Prediction where
  date : String
  temperature_2m_max : Json
  apparent_temperature_max : Json
  relative_humidity_2m_mean : Json
  wind_speed_10m_max : Json
  cloud_cover_mean : Json
  precipitation_sum : Json
  is_heatwave : Int
  heatwave_probability : ℚ
  alert_level : Json
  alert_color : Json
  recommended_action : Json

/-- The per-row formatting of `predict_heatwave` (lines 52-77): normalize
the date, coerce the heatwave flag with `int()` and the probability with
`float()`, pass every other field through unchanged. -/
def formatRow (r : ForecastRow) : Prediction where
  date := formatDateValue r.time
  temperature_2m_max := r.temperature_2m_max
  apparent_temperature_max := r.apparent_temperature_max
  relative_humidity_2m_mean := r.relative_humidity_2m_mean
  wind_speed_10m_max := r.wind_speed_10m_max
  cloud_cover_mean := r.cloud_cover_mean
  precipitation_sum := r.precipitation_sum
  is_heatwave := pyInt r.is_heatwave
  heatwave_probability := r.heatwave_probability
  alert_level := r.alert_level
  alert_color := r.alert_color
  recommended_action := r.recommended_action

/-- `jsonify` serialization of one prediction dict. -/
def Prediction.toJson (p : Prediction) : Json :=
  .obj [("date", .str p.date),
        ("temperature_2m_max", p.temperature_2m_max),
        ("apparent_temperature_max", p.apparent_temperature_max),
        ("relative_humidity_2m_mean", p.relative_humidity_2m_mean),
        ("wind_speed_10m_max", p.wind_speed_10m_max),
        ("cloud_cover_mean", p.cloud_cover_mean),
        ("precipitation_sum", p.precipitation_sum),
        ("is_heatwave", .num (p.is_heatwave : ℚ)),
        ("heatwave_probability", .num p.heatwave_probability),
        ("alert_level", p.alert_level),
        ("alert_color", p.alert_color),
        ("recommended_action", p.recommended_action)]

/-- The 200 body of `POST /heatwave` (lines 79-84). -/
def heatwaveSuccessBody (city : Json) (preds : List Prediction) : Json :=
  .obj [("city", city),
        ("predictions", .arr (preds.map Prediction.toJson)),
        ("message", .str "Forecast generated successfully"),
        ("status", .str "success")]

/-- Response of the `if not request.data` branch (lines 20-25). -/
def emptyBodyResp : Response :=
  ⟨400, errEnvelope "Empty request body" "Request must contain JSON data"⟩

/-- Response of the `except json.JSONDecodeError` branch (lines 30-35). -/
def invalidJsonResp : Response :=
  ⟨400, errEnvelope "Invalid JSON" "Request must be valid JSON"⟩

/-- Response of the `if not data or 'city' not in data` branch (37-42). -/
def missingParamResp : Response :=
  ⟨400, errEnvelope "Missing parameter" "City parameter is required in JSON body"⟩

/-- Response of the outer `except Exception as e` of `POST /heatwave`
(lines 86-91): 500 with `str(e)` as the error field. -/
def heatwaveCatchAll (e : PyExc) : Response :=
  ⟨500, errEnvelope e.toStr "Failed to process your request"⟩

/-- The `POST /heatwave` handler (lines 16-91 of `src/app.py`).

`body` is `request.data`; `gj` is the outcome of `request.get_json()`
(it may return a parsed value, return `None`, or raise); `model` is the
outcome of `model.predict_heatwave(city)` as a function of the `city`
value taken from the parsed body.  Any exception other than the
`json.JSONDecodeError` caught at line 30 propagates to the outer
`except Exception` and becomes a 500. -/
def predict_heatwave (body : String)
    (gj : Except PyExc (Option Json))
    (model : Json → Except PyExc (List ForecastRow)) : Response :=
  if body = "" then emptyBodyResp
  else
    match gj with
    | .error e => if e.isJsonDecodeErr then invalidJsonResp else heatwaveCatchAll e
    | .ok none => missingParamResp
    | .ok (some data) =>
      if truthy data then
        match pyContains data "city" with
        | .error e => heatwaveCatchAll e
        | .ok true =>
          match pyGetItem data "city" with
          | .error e => heatwaveCatchAll e
          | .ok city =>
            match model city with
            | .error e => heatwaveCatchAll e
            | .ok forecast =>
              ⟨200, heatwaveSuccessBody city (forecast.map formatRow)⟩
        | .ok false => missingParamResp
      else missingParamResp

/-- Modelled from the spec: the behaviour of Flask's `request.get_json()`
on a syntactically invalid body.  The spec's §4.1 edge-case note records
that the upstream parser does not raise a classic `json.JSONDecodeError`
for malformed inputs — Flask raises a werkzeug `BadRequest` HTTP
exception ("Failed to decode JSON object: ...") instead.  `parse` stands
for the underlying JSON grammar; Flask itself is outside the repository. -/
def flaskGetJson (parse : String → Option Json) (body : String) :
    Except PyExc (Option Json) :=
  match parse body with
  | some j => .ok (some j)
  | none => .error (.badRequest "Failed to decode JSON object")

/-! ### Historical records and the `GET /api/historical` route -/

/-- One row of the historical CSV, with the columns the route touches. -/
structure HistRecord where
  city : String
  year : Int
  temperature_2m_max : ℚ
  is_heatwave : ℚ
  precipitation_sum : ℚ
  relative_humidity_2m_mean : ℚ

/-- `series.max()` on a pandas series (0 only on the empty series, which
the route never aggregates). -/
def listMax : List ℚ → ℚ
  | [] => 0
  | x :: xs => xs.foldl max x

/-- `series.min()` on a pandas series. -/
def listMin : List ℚ → ℚ
  | [] => 0
  | x :: xs => xs.foldl min x

/-- `series.sum()` on a pandas series. -/
def listSum (l : List ℚ) : ℚ := l.foldr (· + ·) 0

/-- `series.mean()` on a pandas series. -/
def listMean (l : List ℚ) : ℚ := listSum l / (l.length : ℚ)

/-- `series.unique()`: the distinct values in order of first appearance. -/
def uniqueFirst : List Int → List Int
  | [] => []
  | x :: xs => x :: (uniqueFirst xs).filter (fun y => y ≠ x)

/-- One entry of `formatted_data` (lines 128-136): the Year Summary of the
rows of one (city, year) group. -/
structure YearEntry where
  year : Int
  max_temp : ℚ
  min_temp : ℚ
  avg_temp : ℚ
  heatwave_days : Int
  precipitation : ℚ
  humidity : ℚ

/-- Build the Year Summary of group `rows` for year `y` (lines 128-136):
`int(year)`, then `float`/`int` casts of max, min, mean, sum aggregates. -/
def mkYearEntry (rows : List HistRecord) (y : Int) : YearEntry where
  year := y
  max_temp := listMax (rows.map (·.temperature_2m_max))
  min_temp := listMin (rows.map (·.temperature_2m_max))
  avg_temp := listMean (rows.map (·.temperature_2m_max))
  heatwave_days := pyInt (listSum (rows.map (·.is_heatwave)))
  precipitation := listSum (rows.map (·.precipitation_sum))
  humidity := listMean (rows.map (·.relative_humidity_2m_mean))

/-- The aggregation loop of `get_historical_data` (lines 125-136): group
the city's rows by the years in first-appearance order
(`city_data['year'].unique()`) and emit one Year Summary per year. -/
def historicalEntries (cityData : List HistRecord) : List YearEntry :=
  (uniqueFirst (cityData.map (·.year))).map
    (fun y => mkYearEntry (cityData.filter (fun r => decide (r.year = y))) y)

/-- `jsonify` serialization of one Year Summary dict. -/
def YearEntry.toJson (e : YearEntry) : Json :=
  .obj [("year", .num (e.year : ℚ)),
        ("max_temp", .num e.max_temp),
        ("min_temp", .num e.min_temp),
        ("avg_temp", .num e.avg_temp),
        ("heatwave_days", .num (e.heatwave_days : ℚ)),
        ("precipitation", .num e.precipitation),
        ("humidity", .num e.humidity)]

/-- The 200 body of `GET /api/historical` (lines 138-142). -/
def histSuccessBody (city : String) (entries : List YearEntry) : Json :=
  .obj [("city", .str city),
        ("historical_data", .arr (entries.map YearEntry.toJson)),
        ("status", .str "success")]

/-- Response of the `if not city` branch (lines 98-103). -/
def missingParamHistResp : Response :=
  ⟨400, errEnvelope "Missing parameter" "City parameter is required"⟩

/-- Response of the missing-data-file branch (lines 106-111). -/
def dataNotAvailableResp : Response :=
  ⟨404, errEnvelope "Data not available" "Historical data file not found"⟩

/-- Response of the empty-filter branch (lines 117-122). -/
def dataNotFoundResp (city : String) : Response :=
  ⟨404, errEnvelope "Data not found" ("No historical data available for " ++ city)⟩

/-- Response of the outer `except Exception as e` of `GET /api/historical`
(lines 144-149). -/
def historicalCatchAll (e : PyExc) : Response :=
  ⟨500, errEnvelope e.toStr "Failed to fetch historical data"⟩

/-- The `GET /api/historical` handler (lines 93-149 of `src/app.py`).

`cityArg` is `request.args.get('city')` (`none` when absent);
`hasDataFileAttr` is `hasattr(model, 'data_file')`; `pathExists` is
`os.path.exists(model.data_file)`; `readCsv` is the outcome of
`pd.read_csv(model.data_file)`, which may raise into the catch-all. -/
def get_historical_data (cityArg : Option String)
    (hasDataFileAttr pathExists : Bool)
    (readCsv : Except PyExc (List HistRecord)) : Response :=
  match cityArg with
  | none => missingParamHistResp
  | some city =>
    if city = "" then missingParamHistResp
    else if !hasDataFileAttr || !pathExists then dataNotAvailableResp
    else
      match readCsv with
      | .error e => historicalCatchAll e
      | .ok records =>
        let cityData := records.filter (fun r => decide (r.city = city))
        if cityData.isEmpty then dataNotFoundResp city
        else ⟨200, histSuccessBody city (historicalEntries cityData)⟩

/-! ### Helper lemmas -/

/-- A request passing every validation step reaches the model and yields
the 200 success response built from the formatted forecast rows. -/
lemma predict_heatwave_valid (body : String) (data city : Json)
    (m : Json → Except PyExc (List ForecastRow)) (forecast : List ForecastRow)
    (hb : body ≠ "") (ht : truthy data = true)
    (hc : pyContains data "city" = .ok true)
    (hg : pyGetItem data "city" = .ok city)
    (hm : m city = .ok forecast) :
    predict_heatwave body (.ok (some data)) m
      = ⟨200, heatwaveSuccessBody city (forecast.map formatRow)⟩ := by
  simp [predict_heatwave, hb, ht, hc, hg, hm]

/-- Every response of `predict_heatwave` is either the 200 success shape or
an error envelope with status 400 or 500. -/
lemma predict_heatwave_shape (body : String) (gj : Except PyExc (Option Json))
    (m : Json → Except PyExc (List ForecastRow)) :
    (∃ c p, predict_heatwave body gj m = ⟨200, heatwaveSuccessBody c p⟩) ∨
    (∃ e msg s, predict_heatwave body gj m = ⟨s, errEnvelope e msg⟩
      ∧ (s = 400 ∨ s = 500)) := by
  by_cases hb : body = ""
  · exact Or.inr ⟨"Empty request body", "Request must contain JSON data", 400,
      by simp [predict_heatwave, hb, emptyBodyResp], Or.inl rfl⟩
  · cases gj with
    | error e =>
      by_cases hj : e.isJsonDecodeErr
      · exact Or.inr ⟨"Invalid JSON", "Request must be valid JSON", 400,
          by simp [predict_heatwave, hb, hj, invalidJsonResp], Or.inl rfl⟩
      · exact Or.inr ⟨e.toStr, "Failed to process your request", 500,
          by simp [predict_heatwave, hb, hj, heatwaveCatchAll], Or.inr rfl⟩
    | ok dataOpt =>
      cases dataOpt with
      | none =>
        exact Or.inr ⟨"Missing parameter", "City parameter is required in JSON body", 400,
          by simp [predict_heatwave, hb, missingParamResp], Or.inl rfl⟩
      | some data =>
        by_cases ht : truthy data
        · rcases hc : pyContains data "city" with e | b
          · exact Or.inr ⟨e.toStr, "Failed to process your request", 500,
              by simp [predict_heatwave, hb, ht, hc, heatwaveCatchAll], Or.inr rfl⟩
          · cases b with
            | false =>
              exact Or.inr ⟨"Missing parameter", "City parameter is required in JSON body",
                400, by simp [predict_heatwave, hb, ht, hc, missingParamResp], Or.inl rfl⟩
            | true =>
              rcases hg : pyGetItem data "city" with e | city
              · exact Or.inr ⟨e.toStr, "Failed to process your request", 500,
                  by simp [predict_heatwave, hb, ht, hc, hg, heatwaveCatchAll], Or.inr rfl⟩
              · rcases hm : m city with e | forecast
                · exact Or.inr ⟨e.toStr, "Failed to process your request", 500,
                    by simp [predict_heatwave, hb, ht, hc, hg, hm, heatwaveCatchAll],
                    Or.inr rfl⟩
                · exact Or.inl ⟨city, forecast.map formatRow,
                    predict_heatwave_valid body data city m forecast hb
                      (by simpa using ht) hc hg hm⟩
        · exact Or.inr ⟨"Missing parameter", "City parameter is required in JSON body", 400,
            by simp [predict_heatwave, hb, ht, missingParamResp], Or.inl rfl⟩

/-- Every response of `get_historical_data` is either the 200 success shape
or an error envelope with status 400, 404 or 500. -/
lemma get_historical_data_shape (cityArg : Option String)
    (hA pE : Bool) (rc : Except PyExc (List HistRecord)) :
    (∃ c entries, get_historical_data cityArg hA pE rc
        = ⟨200, histSuccessBody c entries⟩) ∨
    (∃ e msg s, get_historical_data cityArg hA pE rc = ⟨s, errEnvelope e msg⟩
      ∧ (s = 400 ∨ s = 404 ∨ s = 500)) := by
  cases cityArg with
  | none =>
    exact Or.inr ⟨"Missing parameter", "City parameter is required", 400,
      by simp [get_historical_data, missingParamHistResp], Or.inl rfl⟩
  | some city =>
    by_cases h0 : city = ""
    · exact Or.inr ⟨"Missing parameter", "City parameter is required", 400,
        by simp [get_historical_data, h0, missingParamHistResp], Or.inl rfl⟩
    · by_cases hfile : (!hA || !pE) = true
      · exact Or.inr ⟨"Data not available", "Historical data file not found", 404,
          by simp [get_historical_data, h0, hfile, dataNotAvailableResp],
          Or.inr (Or.inl rfl)⟩
      · rcases hrc : rc with e | records
        · exact Or.inr ⟨e.toStr, "Failed to fetch historical data", 500,
            by simp [get_historical_data, h0, hfile, historicalCatchAll],
            Or.inr (Or.inr rfl)⟩
        · by_cases hemp :
            (records.filter (fun r => decide (r.city = city))).isEmpty = true
          · exact Or.inr ⟨"Data not found", "No historical data available for " ++ city,
              404, by simp [get_historical_data, h0, hfile, hemp, dataNotFoundResp],
              Or.inr (Or.inl rfl)⟩
          · exact Or.inl ⟨city,
              historicalEntries (records.filter (fun r => decide (r.city = city))),
              by simp [get_historical_data, h0, hfile, hemp]⟩

/-- Members of `uniqueFirst l` come from `l`. -/
lemma mem_of_mem_uniqueFirst : ∀ {l : List Int} {y : Int}, y ∈ uniqueFirst l → y ∈ l := by
  intro l
  induction l with
  | nil => intro y h; simp [uniqueFirst] at h
  | cons x xs ih =>
    intro y h
    simp only [uniqueFirst, List.mem_cons] at h
    rcases h with h | h
    · exact h ▸ List.mem_cons_self x xs
    · exact List.mem_cons_of_mem x (ih (List.mem_of_mem_filter h))

/-- `uniqueFirst` keeps exactly the values of the list. -/
lemma mem_uniqueFirst_of_mem : ∀ {l : List Int} {y : Int}, y ∈ l → y ∈ uniqueFirst l := by
  intro l
  induction l with
  | nil => intro y h; simp at h
  | cons x xs ih =>
    intro y h
    rcases List.mem_cons.mp h with rfl | h
    · simp [uniqueFirst]
    · by_cases hy : y = x
      · simp [uniqueFirst, hy]
      · simp only [uniqueFirst, List.mem_cons]
        exact Or.inr (List.mem_filter.mpr ⟨ih h, by simpa using hy⟩)

/-- `uniqueFirst` of a weakly sorted list is weakly sorted. -/
lemma sorted_uniqueFirst : ∀ {l : List Int},
    List.Sorted (· ≤ ·) l → List.Sorted (· ≤ ·) (uniqueFirst l) := by
  intro l
  induction l with
  | nil => intro _; simp [uniqueFirst]
  | cons x xs ih =>
    intro h
    rcases List.sorted_cons.mp h with ⟨hx, hxs⟩
    refine List.sorted_cons.mpr ⟨?_, (ih hxs).filter _⟩
    intro b hb
    exact hx b (mem_of_mem_uniqueFirst (List.mem_of_mem_filter hb))

/-- The accumulator bounds a `foldl max`. -/
lemma le_foldl_max : ∀ (l : List ℚ) (a : ℚ), a ≤ l.foldl max a := by
  intro l
  induction l with
  | nil => intro a; simp
  | cons x xs ih =>
    intro a
    exact le_trans (le_max_left a x) (ih (max a x))

/-- A `foldl max` is the accumulator or a list element. -/
lemma foldl_max_mem : ∀ (l : List ℚ) (a : ℚ), l.foldl max a = a ∨ l.foldl max a ∈ l := by
  intro l
  induction l with
  | nil => intro a; simp
  | cons x xs ih =>
    intro a
    rcases ih (max a x) with h | h
    · rcases max_choice a x with hm | hm
      · left
        rw [List.foldl_cons, h, hm]
      · right
        rw [List.foldl_cons, h, hm]
        exact List.mem_cons_self x xs
    · right
      rw [List.foldl_cons]
      exact List.mem_cons_of_mem x h

/-- Every element is below a `foldl max`. -/
lemma mem_le_foldl_max : ∀ (l : List ℚ) (a x : ℚ), x ∈ l → x ≤ l.foldl max a := by
  intro l
  induction l with
  | nil => intro a x h; simp at h
  | cons y ys ih =>
    intro a x h
    rcases List.mem_cons.mp h with rfl | h
    · exact le_trans (le_max_right a x) (le_foldl_max ys (max a x))
    · exact ih (max a y) x h

/-- `listMax` of a non-empty list is an element of the list. -/
lemma listMax_mem {l : List ℚ} (h : l ≠ []) : listMax l ∈ l := by
  cases l with
  | nil => exact absurd rfl h
  | cons x xs =>
    rcases foldl_max_mem xs x with h' | h'
    · exact List.mem_cons.mpr (Or.inl (by simpa [listMax] using h'))
    · exact List.mem_cons_of_mem x (by simpa [listMax] using h')

/-- `listMax` bounds every element of the list from above. -/
lemma le_listMax {l : List ℚ} {x : ℚ} (h : x ∈ l) : x ≤ listMax l := by
  cases l with
  | nil => simp at h
  | cons y ys =>
    rcases List.mem_cons.mp h with rfl | h'
    · exact le_foldl_max ys x
    · exact mem_le_foldl_max ys y x h'

/-- The accumulator bounds a `foldl min` from above. -/
lemma foldl_min_le : ∀ (l : List ℚ) (a : ℚ), l.foldl min a ≤ a := by
  intro l
  induction l with
  | nil => intro a; simp
  | cons x xs ih =>
    intro a
    exact le_trans (ih (min a x)) (min_le_left a x)

/-- A `foldl min` is the accumulator or a list element. -/
lemma foldl_min_mem : ∀ (l : List ℚ) (a : ℚ), l.foldl min a = a ∨ l.foldl min a ∈ l := by
  intro l
  induction l with
  | nil => intro a; simp
  | cons x xs ih =>
    intro a
    rcases ih (min a x) with h | h
    · rcases min_choice a x with hm | hm
      · left
        rw [List.foldl_cons, h, hm]
      · right
        rw [List.foldl_cons, h, hm]
        exact List.mem_cons_self x xs
    · right
      rw [List.foldl_cons]
      exact List.mem_cons_of_mem x h

/-- A `foldl min` is below every element. -/
lemma foldl_min_le_mem : ∀ (l : List ℚ) (a x : ℚ), x ∈ l → l.foldl min a ≤ x := by
  intro l
  induction l with
  | nil => intro a x h; simp at h
  | cons y ys ih =>
    intro a x h
    rcases List.mem_cons.mp h with rfl | h
    · exact le_trans (foldl_min_le ys (min a x)) (min_le_right a x)
    · exact ih (min a y) x h

/-- `listMin` of a non-empty list is an element of the list. -/
lemma listMin_mem {l : List ℚ} (h : l ≠ []) : listMin l ∈ l := by
  cases l with
  | nil => exact absurd rfl h
  | cons x xs =>
    rcases foldl_min_mem xs x with h' | h'
    · exact List.mem_cons.mpr (Or.inl (by simpa [listMin] using h'))
    · exact List.mem_cons_of_mem x (by simpa [listMin] using h')

/-- `listMin` bounds every element of the list from below. -/
lemma listMin_le {l : List ℚ} {x : ℚ} (h : x ∈ l) : listMin l ≤ x := by
  cases l with
  | nil => simp at h
  | cons y ys =>
    rcases List.mem_cons.mp h with rfl | h'
    · exact foldl_min_le ys x
    · exact foldl_min_le_mem ys y x h'

/-- The mean times the length recovers the sum on a non-empty list. -/
lemma listMean_mul_length {l : List ℚ} (h : l ≠ []) :
    listMean l * (l.length : ℚ) = listSum l := by
  have hlen : (l.length : ℚ) ≠ 0 :=
    Nat.cast_ne_zero.mpr (fun hz => h (List.length_eq_zero.mp hz))
  simp [listMean, div_mul_cancel₀ _ hlen]

/-! ### Claim theorems -/

/-- C9: every `POST /heatwave` request with an empty body gets HTTP status
400 with error field "Empty request body", and the check precedes any JSON
parsing: the response is the same whatever `request.get_json()` would have
returned or raised and whatever the model would have done. -/
theorem empty_body_rejected_first :
    (∀ (gj : Except PyExc (Option Json)) (m : Json → Except PyExc (List ForecastRow)),
      predict_heatwave "" gj m = emptyBodyResp)
    ∧ emptyBodyResp.statusCode = 400
    ∧ emptyBodyResp.body
        = errEnvelope "Empty request body" "Request must contain JSON data" :=
  ⟨fun _ _ => rfl, rfl, rfl⟩

/-- C10: a non-empty body whose parse result is any falsy JSON value —
`null`, `false`, `0`, `""`, `[]` or `{}` — is answered with the very same
400 "Missing parameter" envelope that an object lacking the "city" key
receives; no distinct "not an object" error exists. -/
theorem falsy_json_missing_param
    (body : String) (m : Json → Except PyExc (List ForecastRow)) (v : Json)
    (hb : body ≠ "")
    (hv : v ∈ ([Json.null, Json.bool false, Json.num 0, Json.str "",
                Json.arr [], Json.obj []] : List Json)) :
    predict_heatwave body (.ok (some v)) m = missingParamResp
    ∧ predict_heatwave body (.ok (some (Json.obj [("other", Json.num 1)]))) m
        = missingParamResp := by
  constructor
  · simp only [List.mem_cons, List.not_mem_nil, or_false] at hv
    rcases hv with rfl | rfl | rfl | rfl | rfl | rfl
    · simp [predict_heatwave, hb, truthy]
    · simp [predict_heatwave, hb, truthy]
    · simp [predict_heatwave, hb, truthy]
    · simp [predict_heatwave, hb, truthy]
    · simp [predict_heatwave, hb, truthy]
    · simp [predict_heatwave, hb, truthy]
  · simp [predict_heatwave, hb, truthy, pyContains]

/-- C10 witness: the falsy value `null` with body "null" is answered with
the 400 "Missing parameter" envelope. -/
theorem falsy_json_missing_param_witness :
    predict_heatwave "null" (.ok (some Json.null)) (fun _ => .ok []) = missingParamResp
    ∧ predict_heatwave "null" (.ok (some (Json.obj [("other", Json.num 1)])))
        (fun _ => .ok []) = missingParamResp :=
  falsy_json_missing_param "null" (fun _ => .ok []) Json.null
    (by decide) (List.mem_cons_self _ _)

/-- C1 (code behaviour at the failing input): a non-empty body that is not
valid JSON makes `request.get_json()` raise a werkzeug `BadRequest`, which
the `except json.JSONDecodeError` clause does not catch; the outer
catch-all turns it into a 500 whose error field is the exception text, not
the 400 "Invalid JSON" envelope the claim describes. -/
theorem malformed_json_yields_500 :
    predict_heatwave "not json" (flaskGetJson (fun _ => none) "not json")
        (fun _ => .ok [])
      = heatwaveCatchAll (PyExc.badRequest "Failed to decode JSON object")
    ∧ (heatwaveCatchAll (PyExc.badRequest "Failed to decode JSON object")).statusCode
        = 500
    ∧ (heatwaveCatchAll (PyExc.badRequest "Failed to decode JSON object")).body
        = errEnvelope "400 Bad Request: Failed to decode JSON object"
            "Failed to process your request"
    ∧ heatwaveCatchAll (PyExc.badRequest "Failed to decode JSON object")
        ≠ invalidJsonResp := by
  refine ⟨rfl, rfl, rfl, ?_⟩
  intro h
  exact absurd (congrArg Response.statusCode h) (by decide)

/-- C2 counterexample: the body `{"city": ""}` — a JSON object whose "city"
value is the empty string — is not rejected: the handler answers 200, not
the 400 "Missing parameter" envelope, because the source only tests
`'city' not in data`, never the value's emptiness. -/
theorem empty_city_accepted :
    (predict_heatwave "x" (.ok (some (Json.obj [("city", Json.str "")])))
        (fun _ => .ok [])).statusCode = 200
    ∧ predict_heatwave "x" (.ok (some (Json.obj [("city", Json.str "")])))
        (fun _ => .ok []) ≠ missingParamResp := by
  refine ⟨rfl, ?_⟩
  intro h
  exact absurd (congrArg Response.statusCode h) (by decide)

/-- C2 (amended): a `POST /heatwave` request whose non-empty body parses to
a JSON object is rejected with 400 "Missing parameter" — without invoking
the model — unless the object contains a "city" key; a body `{"city": ""}`
with an empty city string is NOT rejected: it passes validation and the
model is invoked with the empty city string. -/
theorem missing_param_contract
    (body : String) (kvs : List (String × Json))
    (m₁ m₂ m : Json → Except PyExc (List ForecastRow))
    (rows : List ForecastRow)
    (hb : body ≠ "")
    (hnokey : kvs.any (fun p => p.1 = "city") = false)
    (hm : m (Json.str "") = .ok rows) :
    predict_heatwave body (.ok (some (Json.obj kvs))) m₁ = missingParamResp
    ∧ predict_heatwave body (.ok (some (Json.obj kvs))) m₁
        = predict_heatwave body (.ok (some (Json.obj kvs))) m₂
    ∧ predict_heatwave "x" (.ok (some (Json.obj [("city", Json.str "")]))) m
        = ⟨200, heatwaveSuccessBody (Json.str "") (rows.map formatRow)⟩ := by
  have hrej : ∀ (mm : Json → Except PyExc (List ForecastRow)),
      predict_heatwave body (.ok (some (Json.obj kvs))) mm = missingParamResp := by
    intro mm
    cases kvs with
    | nil => simp [predict_heatwave, hb, truthy]
    | cons p ps =>
      have hc : pyContains (Json.obj (p :: ps)) "city" = .ok false := by
        rw [pyContains, hnokey]
      simp [predict_heatwave, hb, truthy, hc]
  refine ⟨hrej m₁, (hrej m₁).trans (hrej m₂).symm, ?_⟩
  exact predict_heatwave_valid "x" (Json.obj [("city", Json.str "")])
    (Json.str "") m rows (by decide) rfl rfl rfl hm

/-- C2 amended witness: an object without a "city" key is rejected with the
"Missing parameter" envelope independently of the model, and the
`{"city": ""}` body reaches the model and yields the 200 success body. -/
theorem missing_param_contract_witness :
    predict_heatwave "x" (.ok (some (Json.obj [("other", Json.num 1)])))
        (fun _ => .ok []) = missingParamResp
    ∧ predict_heatwave "x" (.ok (some (Json.obj [("other", Json.num 1)])))
        (fun _ => .ok [])
        = predict_heatwave "x" (.ok (some (Json.obj [("other", Json.num 1)])))
            (fun _ => .error (.other "boom"))
    ∧ predict_heatwave "x" (.ok (some (Json.obj [("city", Json.str "")])))
        (fun _ => .ok [])
        = ⟨200, heatwaveSuccessBody (Json.str "") ([].map formatRow)⟩ :=
  missing_param_contract "x" [("other", Json.num 1)] (fun _ => .ok [])
    (fun _ => .error (.other "boom")) (fun _ => .ok []) []
    (by decide) rfl rfl

/-- Python `int(0) = 0`. -/
lemma pyInt_zero : pyInt 0 = 0 := by decide

/-- Python `int(1) = 1`. -/
lemma pyInt_one : pyInt 1 = 1 := by decide

/-- C3: every non-2xx response of either route is the three-key error
envelope with an HTTP status in {400, 404, 500}; and an exception raised by
the model (respectively by the dataset read) after validation passes is
converted into a 500 response carrying the exception text verbatim. -/
theorem error_envelope_contract :
    (∀ body gj m, (predict_heatwave body gj m).statusCode ≠ 200 →
      (∃ e msg, (predict_heatwave body gj m).body = errEnvelope e msg)
      ∧ ((predict_heatwave body gj m).statusCode = 400
         ∨ (predict_heatwave body gj m).statusCode = 404
         ∨ (predict_heatwave body gj m).statusCode = 500))
    ∧ (∀ ca hA pE rc, (get_historical_data ca hA pE rc).statusCode ≠ 200 →
      (∃ e msg, (get_historical_data ca hA pE rc).body = errEnvelope e msg)
      ∧ ((get_historical_data ca hA pE rc).statusCode = 400
         ∨ (get_historical_data ca hA pE rc).statusCode = 404
         ∨ (get_historical_data ca hA pE rc).statusCode = 500))
    ∧ (∀ body data city m exc, body ≠ "" → truthy data = true →
        pyContains data "city" = .ok true → pyGetItem data "city" = .ok city →
        m city = .error exc →
        predict_heatwave body (.ok (some data)) m
          = ⟨500, errEnvelope exc.toStr "Failed to process your request"⟩)
    ∧ (∀ city exc, city ≠ "" →
        get_historical_data (some city) true true (.error exc)
          = ⟨500, errEnvelope exc.toStr "Failed to fetch historical data"⟩) := by
  refine ⟨?_, ?_, ?_, ?_⟩
  · intro body gj m hne
    rcases predict_heatwave_shape body gj m with ⟨c, p, heq⟩ | ⟨e, msg, s, heq, hs⟩
    · rw [heq] at hne
      exact absurd rfl hne
    · rw [heq]
      refine ⟨⟨e, msg, rfl⟩, ?_⟩
      rcases hs with rfl | rfl
      · exact Or.inl rfl
      · exact Or.inr (Or.inr rfl)
  · intro ca hA pE rc hne
    rcases get_historical_data_shape ca hA pE rc with ⟨c, en, heq⟩ | ⟨e, msg, s, heq, hs⟩
    · rw [heq] at hne
      exact absurd rfl hne
    · rw [heq]
      refine ⟨⟨e, msg, rfl⟩, ?_⟩
      rcases hs with rfl | rfl | rfl
      · exact Or.inl rfl
      · exact Or.inr (Or.inl rfl)
      · exact Or.inr (Or.inr rfl)
  · intro body data city m exc hb ht hc hg hm
    simp [predict_heatwave, hb, ht, hc, hg, hm, heatwaveCatchAll]
  · intro city exc h0
    simp [get_historical_data, h0, historicalCatchAll]

/-- C3 witness: the model raising an exception "boom" on a validated
request yields the 500 envelope carrying "boom" verbatim, and the concrete
400 response of an empty body is an error envelope. -/
theorem error_envelope_contract_witness :
    predict_heatwave "x" (.ok (some (Json.obj [("city", Json.str "Phoenix")])))
        (fun _ => .error (.other "boom"))
      = ⟨500, errEnvelope "boom" "Failed to process your request"⟩
    ∧ ((∃ e msg, (get_historical_data none true true (.ok [])).body = errEnvelope e msg)
       ∧ ((get_historical_data none true true (.ok [])).statusCode = 400
          ∨ (get_historical_data none true true (.ok [])).statusCode = 404
          ∨ (get_historical_data none true true (.ok [])).statusCode = 500)) :=
  ⟨error_envelope_contract.2.2.1 "x" (Json.obj [("city", Json.str "Phoenix")])
      (Json.str "Phoenix") (fun _ => .error (.other "boom")) (.other "boom")
      (by decide) rfl rfl rfl rfl,
   error_envelope_contract.2.1 none true true (.ok []) (by decide)⟩

/-- C4: the three representations of 2024-07-01 (text timestamp, native
date value, nanosecond timestamp) all format to "2024-07-01"; any text
value the parser cannot handle formats to the literal "N/A"; and a request
whose forecast contains such rows still succeeds with status 200, each
prediction's date being the normalized form of the row's date. -/
theorem date_normalization :
    formatDateValue (.str "2024-07-01") = "2024-07-01"
    ∧ formatDateValue (.native ⟨2024, 7, 1⟩) = "2024-07-01"
    ∧ formatDateValue (.numNs 1719792000000000000) = "2024-07-01"
    ∧ (∀ s, toDatetimeCoerce s = none → formatDateValue (.str s) = "N/A")
    ∧ (∀ body data city m forecast, body ≠ "" → truthy data = true →
        pyContains data "city" = .ok true → pyGetItem data "city" = .ok city →
        m city = .ok forecast →
        (predict_heatwave body (.ok (some data)) m).statusCode = 200
        ∧ ∀ r ∈ forecast, (formatRow r).date = formatDateValue r.time) := by
  refine ⟨by decide, by decide, by decide, ?_, ?_⟩
  · intro s h
    simp [formatDateValue, h]
  · intro body data city m forecast hb ht hc hg hm
    refine ⟨?_, fun r _ => rfl⟩
    rw [predict_heatwave_valid body data city m forecast hb ht hc hg hm]

/-- C4 witness: "garbage" is unparseable and formats to "N/A", and a
request whose single forecast row is dated "garbage" still answers 200. -/
theorem date_normalization_witness :
    formatDateValue (.str "garbage") = "N/A"
    ∧ (predict_heatwave "x" (.ok (some (Json.obj [("city", Json.str "Phoenix")])))
        (fun _ => .ok [⟨DateValue.str "garbage", Json.num 30, Json.num 29,
          Json.num 50, Json.num 10, Json.num 20, Json.num 0, 1, 1,
          Json.str "High", Json.str "red", Json.str "stay indoors"⟩])).statusCode
        = 200 :=
  ⟨date_normalization.2.2.2.1 "garbage" rfl,
   (date_normalization.2.2.2.2 "x" (Json.obj [("city", Json.str "Phoenix")])
      (Json.str "Phoenix")
      (fun _ => .ok [⟨DateValue.str "garbage", Json.num 30, Json.num 29,
        Json.num 50, Json.num 10, Json.num 20, Json.num 0, 1, 1,
        Json.str "High", Json.str "red", Json.str "stay indoors"⟩])
      [⟨DateValue.str "garbage", Json.num 30, Json.num 29,
        Json.num 50, Json.num 10, Json.num 20, Json.num 0, 1, 1,
        Json.str "High", Json.str "red", Json.str "stay indoors"⟩]
      (by decide) rfl rfl rfl rfl).1⟩

/-- C5: a validated request for which the model returns N forecast rows is
answered 200 with body {city, predictions, message, status:"success"};
`predictions` has length N; provided the model's rows carry a 0/1 heatwave
flag and a probability in [0,1] (the Forecast Row data model), each entry's
`is_heatwave` is an integer in {0,1} and its `heatwave_probability` lies in
[0,1]; the remaining fields are passed through unchanged in row order. -/
theorem forecast_success_contract
    (body : String) (data city : Json)
    (m : Json → Except PyExc (List ForecastRow)) (forecast : List ForecastRow)
    (hb : body ≠ "") (ht : truthy data = true)
    (hc : pyContains data "city" = .ok true)
    (hg : pyGetItem data "city" = .ok city)
    (hm : m city = .ok forecast)
    (hrows : ∀ r ∈ forecast, (r.is_heatwave = 0 ∨ r.is_heatwave = 1)
      ∧ 0 ≤ r.heatwave_probability ∧ r.heatwave_probability ≤ 1) :
    predict_heatwave body (.ok (some data)) m
      = ⟨200, heatwaveSuccessBody city (forecast.map formatRow)⟩
    ∧ (forecast.map formatRow).length = forecast.length
    ∧ (∀ p ∈ forecast.map formatRow,
        (p.is_heatwave = 0 ∨ p.is_heatwave = 1)
        ∧ 0 ≤ p.heatwave_probability ∧ p.heatwave_probability ≤ 1)
    ∧ (∀ r ∈ forecast,
        (formatRow r).temperature_2m_max = r.temperature_2m_max
        ∧ (formatRow r).apparent_temperature_max = r.apparent_temperature_max
        ∧ (formatRow r).relative_humidity_2m_mean = r.relative_humidity_2m_mean
        ∧ (formatRow r).wind_speed_10m_max = r.wind_speed_10m_max
        ∧ (formatRow r).cloud_cover_mean = r.cloud_cover_mean
        ∧ (formatRow r).precipitation_sum = r.precipitation_sum
        ∧ (formatRow r).alert_level = r.alert_level
        ∧ (formatRow r).alert_color = r.alert_color
        ∧ (formatRow r).recommended_action = r.recommended_action) := by
  refine ⟨predict_heatwave_valid body data city m forecast hb ht hc hg hm,
    List.length_map _ _, ?_, fun r _ => ⟨rfl, rfl, rfl, rfl, rfl, rfl, rfl, rfl, rfl⟩⟩
  intro p hp
  rcases List.mem_map.mp hp with ⟨r, hr, rfl⟩
  obtain ⟨h01, h0, h1⟩ := hrows r hr
  refine ⟨?_, h0, h1⟩
  rcases h01 with h | h
  · exact Or.inl (by rw [show (formatRow r).is_heatwave = pyInt r.is_heatwave from rfl,
      h, pyInt_zero])
  · exact Or.inr (by rw [show (formatRow r).is_heatwave = pyInt r.is_heatwave from rfl,
      h, pyInt_one])

/-- C5 witness: a one-row forecast with flag 1 and probability 1/2 yields
the 200 success response; its single prediction entry has `is_heatwave` in
{0,1} and probability within bounds. -/
theorem forecast_success_contract_witness :
    predict_heatwave "x" (.ok (some (Json.obj [("city", Json.str "Phoenix")])))
        (fun _ => .ok [⟨DateValue.str "2024-07-01", Json.num 30, Json.num 29,
          Json.num 50, Json.num 10, Json.num 20, Json.num 0, 1, 1/2,
          Json.str "High", Json.str "red", Json.str "stay indoors"⟩])
      = ⟨200, heatwaveSuccessBody (Json.str "Phoenix")
          ([⟨DateValue.str "2024-07-01", Json.num 30, Json.num 29,
            Json.num 50, Json.num 10, Json.num 20, Json.num 0, 1, 1/2,
            Json.str "High", Json.str "red", Json.str "stay indoors"⟩].map formatRow)⟩
    ∧ (∀ p ∈ [(⟨DateValue.str "2024-07-01", Json.num 30, Json.num 29,
          Json.num 50, Json.num 10, Json.num 20, Json.num 0, 1, 1/2,
          Json.str "High", Json.str "red",
          Json.str "stay indoors"⟩ : ForecastRow)].map formatRow,
        (p.is_heatwave = 0 ∨ p.is_heatwave = 1)
        ∧ 0 ≤ p.heatwave_probability ∧ p.heatwave_probability ≤ 1) := by
  have h := forecast_success_contract "x" (Json.obj [("city", Json.str "Phoenix")])
    (Json.str "Phoenix")
    (fun _ => .ok [⟨DateValue.str "2024-07-01", Json.num 30, Json.num 29,
      Json.num 50, Json.num 10, Json.num 20, Json.num 0, 1, 1/2,
      Json.str "High", Json.str "red", Json.str "stay indoors"⟩])
    [⟨DateValue.str "2024-07-01", Json.num 30, Json.num 29,
      Json.num 50, Json.num 10, Json.num 20, Json.num 0, 1, 1/2,
      Json.str "High", Json.str "red", Json.str "stay indoors"⟩]
    (by decide) rfl rfl rfl rfl
    (by
      intro r hr
      rw [List.mem_singleton] at hr
      subst hr
      exact ⟨Or.inr rfl, by norm_num, by norm_num⟩)
  exact ⟨h.1, h.2.2.1⟩

/-- C6: `GET /api/historical` checks in order: absent or empty city query →
400 "Missing parameter" (regardless of the dataset state); dataset file not
available → 404 "Data not available" (regardless of the read result); zero
records for the city → 404 "Data not found" with a message containing the
city name; only a request passing all three reaches aggregation, which
yields the 200 success body. -/
theorem historical_validation_order :
    (∀ hA pE rc, get_historical_data none hA pE rc = missingParamHistResp)
    ∧ (∀ hA pE rc, get_historical_data (some "") hA pE rc = missingParamHistResp)
    ∧ (∀ city hA pE rc, city ≠ "" → (!hA || !pE) = true →
        get_historical_data (some city) hA pE rc = dataNotAvailableResp)
    ∧ (∀ city records, city ≠ "" →
        (records.filter (fun r => decide (r.city = city))).isEmpty = true →
        get_historical_data (some city) true true (.ok records) = dataNotFoundResp city
        ∧ (∃ s₁, "No historical data available for " ++ city = s₁ ++ city))
    ∧ (∀ city records, city ≠ "" →
        (records.filter (fun r => decide (r.city = city))).isEmpty = false →
        get_historical_data (some city) true true (.ok records)
          = ⟨200, histSuccessBody city
              (historicalEntries (records.filter (fun r => decide (r.city = city))))⟩)
    ∧ missingParamHistResp.statusCode = 400
    ∧ missingParamHistResp.body
        = errEnvelope "Missing parameter" "City parameter is required"
    ∧ dataNotAvailableResp.statusCode = 404
    ∧ dataNotAvailableResp.body
        = errEnvelope "Data not available" "Historical data file not found"
    ∧ (∀ city, (dataNotFoundResp city).statusCode = 404
        ∧ (dataNotFoundResp city).body
            = errEnvelope "Data not found" ("No historical data available for " ++ city)) := by
  refine ⟨fun _ _ _ => rfl, fun _ _ _ => rfl, ?_, ?_, ?_, rfl, rfl, rfl, rfl,
    fun city => ⟨rfl, rfl⟩⟩
  · intro city hA pE rc h0 hf
    simp [get_historical_data, h0, hf]
  · intro city records h0 hemp
    exact ⟨by simp [get_historical_data, h0, hemp], ⟨_, rfl⟩⟩
  · intro city records h0 hemp
    simp [get_historical_data, h0, hemp]

/-- C6 witness: the query `city=Unknown` over a dataset with no record for
"Unknown" yields the 404 "Data not found" response whose message has the
city name as a suffix. -/
theorem historical_validation_order_witness :
    get_historical_data (some "Unknown") true true
        (.ok [⟨"Berlin", 2020, 30, 1, 2, 50⟩])
      = dataNotFoundResp "Unknown"
    ∧ (∃ s₁, "No historical data available for " ++ "Unknown" = s₁ ++ "Unknown") :=
  historical_validation_order.2.2.2.1 "Unknown" [⟨"Berlin", 2020, 30, 1, 2, 50⟩]
    (by decide) (by decide)

/-- C7: for a year `y` present among a city's records, the aggregation
emits the Year Summary of the (city, year) group: its `max_temp` is a group
temperature bounding all others from above, `min_temp` one bounding from
below, `avg_temp` the arithmetic mean (characterized by mean × count =
sum), `heatwave_days` the integer-cast summed heatwave flags,
`precipitation` the summed precipitation and `humidity` the mean humidity. -/
theorem year_summary_aggregates (cityData : List HistRecord) (y : Int)
    (group : List HistRecord) (temps : List ℚ)
    (hy : y ∈ cityData.map HistRecord.year)
    (hgroup : group = cityData.filter (fun r => decide (r.year = y)))
    (htemps : temps = group.map HistRecord.temperature_2m_max) :
    mkYearEntry group y ∈ historicalEntries cityData
    ∧ group ≠ []
    ∧ (mkYearEntry group y).year = y
    ∧ (mkYearEntry group y).max_temp ∈ temps
    ∧ (∀ t ∈ temps, t ≤ (mkYearEntry group y).max_temp)
    ∧ (mkYearEntry group y).min_temp ∈ temps
    ∧ (∀ t ∈ temps, (mkYearEntry group y).min_temp ≤ t)
    ∧ (mkYearEntry group y).avg_temp * (temps.length : ℚ) = listSum temps
    ∧ (mkYearEntry group y).heatwave_days
        = pyInt (listSum (group.map HistRecord.is_heatwave))
    ∧ (mkYearEntry group y).precipitation
        = listSum (group.map HistRecord.precipitation_sum)
    ∧ (mkYearEntry group y).humidity * (group.length : ℚ)
        = listSum (group.map HistRecord.relative_humidity_2m_mean) := by
  subst hgroup
  subst htemps
  have hgr : cityData.filter (fun r => decide (r.year = y)) ≠ [] := by
    rcases List.mem_map.mp hy with ⟨r, hr, hry⟩
    exact List.ne_nil_of_mem (List.mem_filter.mpr ⟨hr, by simp [hry]⟩)
  have htne : (cityData.filter (fun r => decide (r.year = y))).map
      HistRecord.temperature_2m_max ≠ [] := by
    intro h
    exact hgr (List.map_eq_nil_iff.mp h)
  have hhne : (cityData.filter (fun r => decide (r.year = y))).map
      HistRecord.relative_humidity_2m_mean ≠ [] := by
    intro h
    exact hgr (List.map_eq_nil_iff.mp h)
  refine ⟨List.mem_map_of_mem _ (mem_uniqueFirst_of_mem hy), hgr, rfl,
    listMax_mem htne, fun t ht => le_listMax ht,
    listMin_mem htne, fun t ht => listMin_le ht,
    listMean_mul_length htne, rfl, rfl, ?_⟩
  have h := listMean_mul_length hhne
  simpa [List.length_map] using h

/-- C7 witness: for city "X", year 2020, max-temperatures [30, 35, 32], the
Year Summary has max_temp = 35, min_temp = 30, avg_temp = 97/3 and
heatwave_days = 2, and satisfies the aggregate characterization. -/
theorem year_summary_aggregates_witness :
    (mkYearEntry [⟨"X", 2020, 30, 1, 2, 50⟩, ⟨"X", 2020, 35, 0, 3, 60⟩,
        ⟨"X", 2020, 32, 1, 1, 55⟩] 2020).max_temp = 35
    ∧ (mkYearEntry [⟨"X", 2020, 30, 1, 2, 50⟩, ⟨"X", 2020, 35, 0, 3, 60⟩,
        ⟨"X", 2020, 32, 1, 1, 55⟩] 2020).min_temp = 30
    ∧ (mkYearEntry [⟨"X", 2020, 30, 1, 2, 50⟩, ⟨"X", 2020, 35, 0, 3, 60⟩,
        ⟨"X", 2020, 32, 1, 1, 55⟩] 2020).avg_temp = 97 / 3
    ∧ (mkYearEntry [⟨"X", 2020, 30, 1, 2, 50⟩, ⟨"X", 2020, 35, 0, 3, 60⟩,
        ⟨"X", 2020, 32, 1, 1, 55⟩] 2020).heatwave_days = 2
    ∧ mkYearEntry [⟨"X", 2020, 30, 1, 2, 50⟩, ⟨"X", 2020, 35, 0, 3, 60⟩,
        ⟨"X", 2020, 32, 1, 1, 55⟩] 2020
        ∈ historicalEntries [⟨"X", 2020, 30, 1, 2, 50⟩, ⟨"X", 2020, 35, 0, 3, 60⟩,
            ⟨"X", 2020, 32, 1, 1, 55⟩] := by
  have h := year_summary_aggregates
    [⟨"X", 2020, 30, 1, 2, 50⟩, ⟨"X", 2020, 35, 0, 3, 60⟩, ⟨"X", 2020, 32, 1, 1, 55⟩]
    2020
    [⟨"X", 2020, 30, 1, 2, 50⟩, ⟨"X", 2020, 35, 0, 3, 60⟩, ⟨"X", 2020, 32, 1, 1, 55⟩]
    [30, 35, 32] (by decide) rfl rfl
  refine ⟨by norm_num [mkYearEntry, listMax], by norm_num [mkYearEntry, listMin],
    by norm_num [mkYearEntry, listMean, listSum], by norm_num [mkYearEntry, listSum, pyInt],
    h.1⟩

/-- C8 counterexample: a dataset whose rows for city "X" list year 2021
before year 2020 yields a successful response whose `historical_data` years
are [2021, 2020] — not ascending. -/
theorem historical_years_not_sorted :
    get_historical_data (some "X") true true
        (.ok [⟨"X", 2021, 30, 1, 2, 50⟩, ⟨"X", 2020, 35, 0, 3, 60⟩])
      = ⟨200, histSuccessBody "X"
          (historicalEntries [⟨"X", 2021, 30, 1, 2, 50⟩, ⟨"X", 2020, 35, 0, 3, 60⟩])⟩
    ∧ (historicalEntries [⟨"X", 2021, 30, 1, 2, 50⟩,
        ⟨"X", 2020, 35, 0, 3, 60⟩]).map YearEntry.year = [2021, 2020]
    ∧ ¬ List.Sorted (· ≤ ·)
        ((historicalEntries [⟨"X", 2021, 30, 1, 2, 50⟩,
          ⟨"X", 2020, 35, 0, 3, 60⟩]).map YearEntry.year) := by
  refine ⟨rfl, rfl, ?_⟩
  show ¬ List.Sorted (· ≤ ·) [(2021 : Int), 2020]
  decide

/-- C8 (amended): the years of `historical_data` are the city's dataset
years in order of first appearance (`unique()` order), so they are
ascending exactly when the dataset's rows for the city are already
year-sorted; ascending order is not imposed otherwise. -/
theorem historical_year_order :
    (∀ cityData : List HistRecord,
      (historicalEntries cityData).map YearEntry.year
        = uniqueFirst (cityData.map HistRecord.year))
    ∧ (∀ cityData : List HistRecord,
        List.Sorted (· ≤ ·) (cityData.map HistRecord.year) →
        List.Sorted (· ≤ ·) ((historicalEntries cityData).map YearEntry.year)) := by
  have hmap : ∀ cityData : List HistRecord,
      (historicalEntries cityData).map YearEntry.year
        = uniqueFirst (cityData.map HistRecord.year) := by
    intro cityData
    rw [historicalEntries, List.map_map]
    exact List.map_id' _
  exact ⟨hmap, fun cityData h => (hmap cityData) ▸ sorted_uniqueFirst h⟩

/-- C8 amended witness: a year-sorted two-row dataset yields ascending
`historical_data` years. -/
theorem historical_year_order_witness :
    List.Sorted (· ≤ ·)
      ((historicalEntries [⟨"X", 2020, 35, 0, 3, 60⟩,
        ⟨"X", 2021, 30, 1, 2, 50⟩]).map YearEntry.year) :=
  historical_year_order.2
    [⟨"X", 2020, 35, 0, 3, 60⟩, ⟨"X", 2021, 30, 1, 2, 50⟩] (by decide)
